import Mathlib

/-!
# FlowPay orchestration core — verification of the specification claims

Shallow embedding of the FlowPay backend (FastAPI, Python) into Lean 4:

* `FX`      — `app/services/fx.py` (rate locks, drift checks)
* `Nessie`  — `app/services/nessie.py` (ledger gateway balance read)
* `Pool`    — `app/api/pool.py` (Pool state machine)
* `FXPool`  — `app/api/fxpool.py` (FX Pool refund path and cancel/force-drift)
* `Collect` — `app/api/collect.py` (Collect approve/decline)
* `Idem`    — `app/middleware/idempotency.py` (idempotent replay cache)

Modelling conventions:

* Money amounts are integer minor units (`ℤ`, Python `int` is unbounded).
* Times are abstract integers; only comparisons and addition of durations
  are ever performed on them in the embedded code.
* Python `float` rate arithmetic is modelled with exact rationals (`ℚ`);
  every concrete value used in a witness or counterexample below is one at
  which Python's binary floating point computes the same answer.
* External calls (ledger transfer, balance fetch) are modelled as oracle
  parameters: `Option` results where `none` stands for a raised exception.
* Status fields are strings, exactly as in the source.
-/

namespace FX

/-- Python `int()` applied to a (real-valued) quantity truncates toward zero. -/
def pyTrunc (q : ℚ) : ℤ := if 0 ≤ q then ⌊q⌋ else ⌈q⌉

/-- Python `round` at rational arguments: round half to even. -/
def pyRoundHalfEven (q : ℚ) : ℤ :=
  let f := ⌊q⌋
  if q - f < 1/2 then f
  else if q - f > 1/2 then f + 1
  else if f % 2 = 0 then f else f + 1

/-- Python `round(x, 4)`: round to 4 decimal places. -/
def pyRound4 (q : ℚ) : ℚ := (pyRoundHalfEven (q * 10000) : ℚ) / 10000

/-- A stored FX rate lock (`fx.py`, dict built by `lock_rate`). -/
structure RateLock where
  id : String
  source_currency : String
  target_currency : String
  rate : ℚ
  amount_target_cents : ℤ
  amount_source_cents : ℤ
  max_drift_pct : ℚ
  locked_at : ℤ
  expires_at : ℤ
  status : String
  deriving Repr, DecidableEq

/-- The in-memory `rate_lock_store` dict, as an association list. -/
abbrev RateLockStore := List (String × RateLock)

/-- Lookup `rate_lock_store.get(lock_id)`. -/
def storeGet (s : RateLockStore) (k : String) : Option RateLock :=
  (s.find? (fun e => e.1 == k)).map (fun e => e.2)

/-- Embedding of `fx.py` `lock_rate`: the fetched rate is passed in as an oracle value
(the result of `get_live_rate`), the generated uuid id and the current time
are parameters.  Mirrors the source line by line:
`if rate == 0: rate = 1.0`; `amount_target_decimal = amount_target / 100`;
`source_decimal = amount_target_decimal / rate`;
`amount_source_cents = int(source_decimal * 100)`;
`expires_at = now + timedelta(minutes=lock_duration_minutes)`. -/
def lock_rate (lockId : String) (source_currency target_currency : String)
    (fetchedRate : ℚ) (amount_target : ℤ) (now : ℤ)
    (lock_duration_minutes : ℤ) (max_drift_pct : ℚ) : RateLock :=
  let rate := if fetchedRate = 0 then 1 else fetchedRate
  let amount_target_decimal := (amount_target : ℚ) / 100
  let source_decimal := amount_target_decimal / rate
  let amount_source_cents := pyTrunc (source_decimal * 100)
  { id := lockId
    source_currency := source_currency
    target_currency := target_currency
    rate := rate
    amount_target_cents := amount_target
    amount_source_cents := amount_source_cents
    max_drift_pct := max_drift_pct
    locked_at := now
    expires_at := now + lock_duration_minutes
    status := "active" }

/-- The dict returned by `check_drift`; fields that are absent in one of the
two return branches are `Option`s. -/
structure DriftResult where
  lock_id : Option String
  locked_rate : Option ℚ
  current_rate : Option ℚ
  drift_pct : Option ℚ
  max_drift_pct : Option ℚ
  drifted : Bool
  error : Option String
  deriving Repr, DecidableEq

/-- Embedding of `fx.py` `check_drift`: the refetched current rate is an oracle parameter
(the result of `get_live_rate`).  The function only reads
`rate_lock_store`; the returned store makes the absence of writes explicit.
Mirrors: `drift_pct = abs((current_rate - locked_rate) / locked_rate) * 100`;
`drifted = drift_pct > lock["max_drift_pct"]`; `round(drift_pct, 4)`. -/
def check_drift (store : RateLockStore) (lock_id : String) (current_rate : ℚ) :
    DriftResult × RateLockStore :=
  match storeGet store lock_id with
  | none =>
      ({ lock_id := none, locked_rate := none, current_rate := none,
         drift_pct := none, max_drift_pct := none,
         drifted := false, error := some "Lock not found" }, store)
  | some lock =>
      let locked_rate := lock.rate
      let drift_pct := |(current_rate - locked_rate) / locked_rate| * 100
      let drifted := decide (lock.max_drift_pct < drift_pct)
      ({ lock_id := some lock_id, locked_rate := some locked_rate,
         current_rate := some current_rate,
         drift_pct := some (pyRound4 drift_pct),
         max_drift_pct := some lock.max_drift_pct,
         drifted := drifted, error := none }, store)

end FX

namespace Nessie

/-- The insufficient-funds guard used by `pool.py` and `collect.py`:
`if balance < request.amount`. -/
def insufficientFunds (balance amount : ℤ) : Bool := decide (balance < amount)

/-- Embedding of `nessie.py` `get_balance`: the upstream HTTP fetch is an oracle parameter,
`none` meaning any raised exception, `some reported` meaning a successful
response carrying `balance` field `reported`.  Mirrors:
`return reported if reported > 0 else 999999` and
`except Exception: return 999999`. -/
def get_balance (fetch : Option ℤ) : ℤ :=
  match fetch with
  | none => 999999
  | some reported => if reported > 0 then reported else 999999

end Nessie

namespace Pool

/-- One entry of `fake_contributions_db[pool_id]` (`pool.py`). -/
structure Contribution where
  payer_account_id : String
  amount : ℤ
  nessie_transfer_id : String
  deriving Repr, DecidableEq

/-- The mutable fields of a `PoolResponse` object together with its
contribution list (`fake_pool_db[pool_id]` and
`fake_contributions_db[pool_id]`, which the handlers always address as a
pair under one pool id). -/
structure PoolState where
  status : String
  goal_amount : ℤ
  collected_amount : ℤ
  contributions : List Contribution
  deadline : ℤ
  participant_count : ℤ
  contributions_count : ℤ
  nessie_transfer_ids : List String
  refund_ids : Option (List String)
  deriving Repr, DecidableEq

/-- Embedding of `create_pool`: fresh pool with empty contribution list. -/
def mkPool (goal deadline : ℤ) : PoolState :=
  { status := "collecting", goal_amount := goal, collected_amount := 0,
    contributions := [], deadline := deadline, participant_count := 0,
    contributions_count := 0, nessie_transfer_ids := [], refund_ids := none }

/-- The HTTP errors raised by `contribute_to_pool` and `cancel_pool`. -/
inductive PoolError where
  | conflict_funded
  | pool_expired
  | balance_fetch_failed
  | insufficient_funds
  | transfer_failed
  | cannot_cancel
  deriving Repr, DecidableEq

/-- Sum of recorded contribution amounts; `collected_amount` must equal it. -/
def sumAmounts (l : List Contribution) : ℤ := (l.map (fun c => c.amount)).sum

/-- The `try/except: pass` around the settlement transfer: the settlement
id is appended when the transfer succeeded, a failure is swallowed. -/
def appendSettle (ids : List String) (settleTxn : Option String) : List String :=
  match settleTxn with
  | some s => ids ++ [s]
  | none => ids

/-- Embedding of `pool.py` `contribute_to_pool`, with the external effects as oracle
parameters: `fetchBalance` is the `get_balance` outcome (`none` = raised),
`txn` the escrow `transfer` outcome, `settleTxn` the settlement `transfer`
outcome (whose failure the source swallows with `except: pass`).
Mirrors the source order: funded check (409), deadline check (422),
balance fetch/compare (400/402), transfer (500), then append the
contribution, bump the counters, and flip to `funded` when
`collected_amount >= goal_amount`, appending the settlement transfer id
when that transfer succeeded. -/
def contribute (p : PoolState) (payer_account_id : String) (amount : ℤ)
    (now : ℤ) (fetchBalance : Option ℤ) (txn : Option String)
    (settleTxn : Option String) : Except PoolError PoolState :=
  if p.status = "funded" then .error .conflict_funded
  else if now > p.deadline then .error .pool_expired
  else
    match fetchBalance with
    | none => .error .balance_fetch_failed
    | some balance =>
      if Nessie.insufficientFunds balance amount then .error .insufficient_funds
      else
        match txn with
        | none => .error .transfer_failed
        | some transfer_id =>
          let contributions' :=
            p.contributions ++ [⟨payer_account_id, amount, transfer_id⟩]
          let collected' := p.collected_amount + amount
          let p' := { p with
            contributions := contributions',
            collected_amount := collected',
            participant_count :=
              ((contributions'.map (fun c => c.payer_account_id)).dedup.length : ℤ),
            contributions_count := p.contributions_count + 1 }
          if p'.goal_amount ≤ collected' then
            .ok { p' with
              status := "funded",
              nessie_transfer_ids := appendSettle p'.nessie_transfer_ids settleTxn }
          else .ok p'

/-- Embedding of `pool.py` `cancel_pool`: guard `status != "collecting"`, then set
`cancelled` and run the refund loop over the recorded contributions.
`refundTxn i` is the outcome of the reverse `transfer` for the i-th
contribution (`none` = raised); on failure the source appends a
`failed_ref_...` placeholder (`failTag i`) and continues. -/
def cancel (p : PoolState) (refundTxn : ℕ → Option String)
    (failTag : ℕ → String) : Except PoolError PoolState :=
  if p.status ≠ "collecting" then .error .cannot_cancel
  else
    let ids := (List.range p.contributions.length).map (fun i =>
      match refundTxn i with
      | some t => t
      | none => failTag i)
    .ok { p with status := "cancelled", refund_ids := some ids }

/-- A command against one pool, carrying its oracle outcomes. -/
inductive PoolOp where
  | contribute (payer_account_id : String) (amount now : ℤ)
      (fetchBalance : Option ℤ) (txn settleTxn : Option String)
  | cancel (refundTxn : ℕ → Option String) (failTag : ℕ → String)

/-- One command: a rejected command leaves the stored pool unchanged
(every error branch in the source raises before any mutation). -/
def step (p : PoolState) (op : PoolOp) : PoolState :=
  match op with
  | .contribute payer amount now fetch txn settle =>
    match contribute p payer amount now fetch txn settle with
    | .ok p' => p'
    | .error _ => p
  | .cancel refundTxn failTag =>
    match cancel p refundTxn failTag with
    | .ok p' => p'
    | .error _ => p

/-- A sequence of commands against one pool. -/
def run (p : PoolState) (ops : List PoolOp) : PoolState := ops.foldl step p

end Pool

namespace FXPool

/-- One entry of `fxpool_contributions_db[pool_id]` (`fxpool.py`). -/
structure FXContribution where
  payer_account_id : String
  currency : String
  amount_local : ℤ
  amount_usd : ℤ
  usd_rate : ℚ
  rate_lock_id : String
  nessie_transfer_id : String
  deriving Repr, DecidableEq

/-- The mutable fields of an `fxpool_db[pool_id]` dict together with its
contribution list. -/
structure FXPoolState where
  status : String
  goal_amount_usd : ℤ
  collected_usd : ℤ
  deadline : ℤ
  max_rate_drift_pct : ℚ
  organizer_account_id : String
  payee_account_id : String
  contributions : List FXContribution
  contributions_count : ℤ
  nessie_settlement_id : Option String
  deriving Repr, DecidableEq

/-- A `transfer(payer, payee, amount, ...)` call issued to the ledger
gateway. -/
structure TransferCall where
  payer_account_id : String
  payee_account_id : String
  amount : ℤ
  deriving Repr, DecidableEq

/-- One entry of the `refunds` list built by `_trigger_fxpool_refund`:
either the success dict (payer, currency, amount_refunded, nessie_id) or
the failure dict (payer, error). -/
inductive RefundOutcome where
  | refunded (payer currency : String) (amount_refunded : ℤ) (nessie_id : String)
  | failed (payer : String)
  deriving Repr, DecidableEq

/-- The `for contrib in fxpool_contributions_db...` loop of
`_trigger_fxpool_refund`: for each contribution, in order, issue a reverse
`transfer` from the organizer to the contributor for `amount_local`; on a
raised transfer (`refundTxn i = none`) record the failure dict and
continue with the rest.  Returns the `refunds` list and the list of
transfer calls issued. -/
def refundLoop (organizer : String) (cs : List FXContribution)
    (refundTxn : ℕ → Option String) (i : ℕ) :
    List RefundOutcome × List TransferCall :=
  match cs with
  | [] => ([], [])
  | c :: rest =>
    let call : TransferCall := ⟨organizer, c.payer_account_id, c.amount_local⟩
    let out :=
      match refundTxn i with
      | some t => RefundOutcome.refunded c.payer_account_id c.currency c.amount_local t
      | none => RefundOutcome.failed c.payer_account_id
    let tail := refundLoop organizer rest refundTxn (i + 1)
    (out :: tail.1, call :: tail.2)

/-- Embedding of `fxpool.py` `_trigger_fxpool_refund`: unconditionally sets the status
(`cancelled` for `organizer_cancelled`, else `drift_refunded`) and runs
the refund loop.  There is no status guard in the source.  Returns the
updated pool, the `refunds` list, and the transfer calls issued. -/
def triggerRefund (p : FXPoolState) (reason : String)
    (refundTxn : ℕ → Option String) :
    FXPoolState × List RefundOutcome × List TransferCall :=
  let p' := { p with
    status := if reason = "organizer_cancelled" then "cancelled" else "drift_refunded" }
  let loop := refundLoop p.organizer_account_id p.contributions refundTxn 0
  (p', loop.1, loop.2)

/-- Embedding of `fxpool.py` `cancel_fxpool`: after the 404 lookup, directly
`_trigger_fxpool_refund(pool_id, "organizer_cancelled")` — no status
check. -/
def cancel_fxpool (p : FXPoolState) (refundTxn : ℕ → Option String) :
    FXPoolState × List RefundOutcome × List TransferCall :=
  triggerRefund p "organizer_cancelled" refundTxn

/-- Embedding of `fxpool.py` `simulate_rate_drift` (`POST .../force-drift`): after the
404 lookup, directly `_trigger_fxpool_refund(pool_id, "rate_drift_simulated")`
— no status check. -/
def simulate_rate_drift (p : FXPoolState) (refundTxn : ℕ → Option String) :
    FXPoolState × List RefundOutcome × List TransferCall :=
  triggerRefund p "rate_drift_simulated" refundTxn

end FXPool

namespace Collect

/-- The mutable fields of a `CollectResponse` object (`collect.py`). -/
structure CollectState where
  status : String
  amount : ℤ
  payer_account_id : String
  payee_account_id : String
  expires_at : ℤ
  approved_at : Option ℤ
  declined_at : Option ℤ
  nessie_transfer_id : Option String
  deriving Repr, DecidableEq

/-- The HTTP errors raised by `approve_collect` / `decline_collect`. -/
inductive CollectError where
  | invalid_state
  | collect_expired
  | balance_fetch_failed
  | insufficient_funds
  | transfer_failed
  deriving Repr, DecidableEq

/-- Embedding of `collect.py` `approve_collect`, external effects as oracles
(`fetchBalance`: `get_balance` outcome, `txn`: `transfer` outcome).
Returns the result together with the post-state of the stored object,
because the expiry branch mutates the object (`status = "expired"`) before
raising.  Mirrors the source order: non-pending guard (400), expiry check
(410, with the coupled transition), balance (400/402), transfer (500),
then the `approved` transition recording `approved_at` and
`nessie_transfer_id`. -/
def approve_collect (c : CollectState) (now : ℤ) (fetchBalance : Option ℤ)
    (txn : Option String) : Except CollectError CollectState × CollectState :=
  if c.status ≠ "pending" then (.error .invalid_state, c)
  else if now > c.expires_at then
    let c' := { c with status := "expired" }
    (.error .collect_expired, c')
  else
    match fetchBalance with
    | none => (.error .balance_fetch_failed, c)
    | some balance =>
      if Nessie.insufficientFunds balance c.amount then
        (.error .insufficient_funds, c)
      else
        match txn with
        | none => (.error .transfer_failed, c)
        | some t =>
          let c' := { c with
            status := "approved", approved_at := some now,
            nessie_transfer_id := some t }
          (.ok c', c')

/-- Embedding of `collect.py` `decline_collect`: non-pending guard (400), then the
`declined` transition recording `declined_at`. -/
def decline_collect (c : CollectState) (now : ℤ) :
    Except CollectError CollectState × CollectState :=
  if c.status ≠ "pending" then (.error .invalid_state, c)
  else
    let c' := { c with status := "declined", declined_at := some now }
    (.ok c', c')

end Collect

namespace Idem

/-- The parts of a request the middleware inspects. -/
structure IdemRequest where
  method : String
  path : String
  idempotencyKey : Option String
  deriving Repr, DecidableEq

/-- The `_idempotency_store` dict: `(key, path) -> (status_code, body)`.
The body is the byte string cached from the response. -/
abbrev IdemStore := List ((String × String) × (ℕ × String))

/-- Lookup in `_idempotency_store`. -/
def storeLookup (s : IdemStore) (k : String × String) : Option (ℕ × String) :=
  (s.find? (fun e => e.1 == k)).map (fun e => e.2)

/-- What `IdempotencyMiddleware.dispatch` produces for one request:
the response status and body, the value of the `X-Idempotency-Replayed`
header (`none` when the header is not set), and whether `call_next`
(the downstream handler) was invoked. -/
structure DispatchResult where
  status : ℕ
  body : String
  replayed : Option Bool
  handlerInvoked : Bool
  deriving Repr, DecidableEq

/-- Embedding of `idempotency.py` `IdempotencyMiddleware.dispatch`, sequential
semantics.  `handler` is the `(status, body)` the downstream endpoint
would produce for this request.  Mirrors the source: non-POST requests
and requests whose `Idempotency-Key` header is absent or falsy (the
empty string) pass straight through; a cached `(key, path)` pair is
answered from the store without calling the handler, tagged as a replay;
otherwise the handler runs and its result is cached only when the status
is 2xx. -/
def dispatch (store : IdemStore) (req : IdemRequest) (handler : ℕ × String) :
    DispatchResult × IdemStore :=
  if req.method ≠ "POST" then
    ({ status := handler.1, body := handler.2, replayed := none,
       handlerInvoked := true }, store)
  else
    match req.idempotencyKey with
    | none =>
        ({ status := handler.1, body := handler.2, replayed := none,
           handlerInvoked := true }, store)
    | some key =>
      if key = "" then
        ({ status := handler.1, body := handler.2, replayed := none,
           handlerInvoked := true }, store)
      else
        let cacheKey := (key, req.path)
        match storeLookup store cacheKey with
        | some cached =>
            ({ status := cached.1, body := cached.2, replayed := some true,
               handlerInvoked := false }, store)
        | none =>
          if 200 ≤ handler.1 ∧ handler.1 < 300 then
            ({ status := handler.1, body := handler.2, replayed := some false,
               handlerInvoked := true }, (cacheKey, handler) :: store)
          else
            ({ status := handler.1, body := handler.2, replayed := none,
               handlerInvoked := true }, store)

/-- Shared state of the concurrency model for `dispatch`: the cache entry
for one fixed `(key, path)` pair, plus a count of downstream handler
executions. -/
structure ConcState where
  cache : Option (ℕ × String)
  handlerRuns : ℕ
  deriving Repr, DecidableEq

/-- Progress of one in-flight request through `dispatch`.  The `await
call_next(request)` between the cache check and the cache write is a
suspension point, so the check and the execute-and-write parts are
separate atomic segments. -/
inductive ReqPhase where
  | start
  | checkedMiss
  | done (status : ℕ) (body : String)
  deriving Repr, DecidableEq

/-- One atomic segment of `dispatch` for one request (all requests here
carry the same key and path, so they share the one cache entry).
From `start`: the cache check — a hit finishes with the cached response
(no handler run), a miss proceeds.  From `checkedMiss`: run the handler
and write the cache when the status is 2xx. -/
def reqStep (s : ConcState) (ph : ReqPhase) (handler : ℕ × String) :
    ConcState × ReqPhase :=
  match ph with
  | .start =>
    match s.cache with
    | some c => (s, .done c.1 c.2)
    | none => (s, .checkedMiss)
  | .checkedMiss =>
    ({ cache := if 200 ≤ handler.1 ∧ handler.1 < 300 then some handler else s.cache,
       handlerRuns := s.handlerRuns + 1 }, .done handler.1 handler.2)
  | .done st b => (s, .done st b)

/-- Two requests with the same key and path, interleaved so that both
pass the cache check before either has written: check₁, check₂, exec₁,
exec₂. -/
def raceRun (handler : ℕ × String) : ConcState × ReqPhase × ReqPhase :=
  let s0 : ConcState := ⟨none, 0⟩
  let a1 := reqStep s0 .start handler
  let a2 := reqStep a1.1 .start handler
  let b1 := reqStep a2.1 a1.2 handler
  let b2 := reqStep b1.1 a2.2 handler
  (b2.1, b1.2, b2.2)

/-- The same two requests run strictly one after the other: check₁,
exec₁, check₂ (now a hit), exec₂ never reached. -/
def seqRun (handler : ℕ × String) : ConcState × ReqPhase × ReqPhase :=
  let s0 : ConcState := ⟨none, 0⟩
  let a1 := reqStep s0 .start handler
  let a2 := reqStep a1.1 a1.2 handler
  let b1 := reqStep a2.1 .start handler
  let b2 := reqStep b1.1 b1.2 handler
  (b2.1, a2.2, b2.2)

end Idem

/-! Auxiliary definitions used by the statements below. -/

/-- The spec's Pool invariant: the collected amount is the sum of the
recorded contributions, and a pool at or past its goal is `funded`. -/
def PoolInv (p : Pool.PoolState) : Prop :=
  p.collected_amount = Pool.sumAmounts p.contributions
  ∧ (p.goal_amount ≤ p.collected_amount → p.status = "funded")

/-- A concrete stored rate lock: INR→USD at 0.012, tolerance 2%, created
via `lock_rate` for a 4900-cent target. -/
def exampleLock : FX.RateLock :=
  FX.lock_rate "rate_ex1" "inr" "usd" (3/250) 4900 0 30 2

/-- A store holding `exampleLock`. -/
def exampleStore : FX.RateLockStore := [("rate_ex1", exampleLock)]

/-- A concrete FX pool that has already reached its goal and settled
(status `funded`, settlement id recorded), with one INR contribution. -/
def fundedFXPool : FXPool.FXPoolState :=
  { status := "funded", goal_amount_usd := 6000, collected_usd := 6000,
    deadline := 1000, max_rate_drift_pct := 3,
    organizer_account_id := "org_acct", payee_account_id := "payee_acct",
    contributions := [⟨"payer_1", "inr", 500000, 6000, 3/250, "rate_1", "txn_1"⟩],
    contributions_count := 1, nessie_settlement_id := some "settle_1" }

/-! ## Theorems -/

/-- C3: for every stored rate lock with locked rate `R > 0`, tolerance `M`,
and any current oracle rate `R'`, `check_drift` reports drifted exactly when
`|R' - R| / R * 100 > M` (strict, so drift equal to `M` is not drifted),
returns the drift percentage rounded to 4 decimals, and leaves the stored
lock state untouched. -/
theorem check_drift_strict_pure
    (store : FX.RateLockStore) (lock_id : String) (lock : FX.RateLock)
    (R' : ℚ) (hfound : FX.storeGet store lock_id = some lock)
    (hR : 0 < lock.rate) :
    (FX.check_drift store lock_id R').1.drifted
        = decide (|R' - lock.rate| / lock.rate * 100 > lock.max_drift_pct)
    ∧ (FX.check_drift store lock_id R').1.drift_pct
        = some (FX.pyRound4 (|R' - lock.rate| / lock.rate * 100))
    ∧ (FX.check_drift store lock_id R').2 = store := by
  have habs : |(R' - lock.rate) / lock.rate| = |R' - lock.rate| / lock.rate := by
    rw [abs_div, abs_of_pos hR]
  unfold FX.check_drift
  rw [hfound]
  simp only [habs]
  exact ⟨trivial, trivial, trivial⟩

/-- Witness for C3 at the boundary: current rate 0.01224 is exactly 2%
away from the locked 0.012 with tolerance 2%, so `drifted` is `false`. -/
theorem check_drift_strict_pure_witness :
    (FX.storeGet exampleStore "rate_ex1" = some exampleLock
      ∧ 0 < exampleLock.rate)
    ∧ ((FX.check_drift exampleStore "rate_ex1" (153/12500)).1.drifted
          = decide (|(153/12500 : ℚ) - exampleLock.rate| / exampleLock.rate * 100
              > exampleLock.max_drift_pct)
        ∧ (FX.check_drift exampleStore "rate_ex1" (153/12500)).1.drift_pct
          = some (FX.pyRound4 (|(153/12500 : ℚ) - exampleLock.rate| / exampleLock.rate * 100))
        ∧ (FX.check_drift exampleStore "rate_ex1" (153/12500)).2 = exampleStore) :=
  ⟨⟨rfl, by norm_num [exampleLock, FX.lock_rate]⟩,
    check_drift_strict_pure exampleStore "rate_ex1" exampleLock (153/12500)
      rfl (by norm_num [exampleLock, FX.lock_rate])⟩

/-- C5 counterexample: `lock_rate` for target 200 minor units at rate 3
stores `int(200/3) = 66`, not `round(200/3) = 67`.  (Python's binary
floating point computes the same 66 here.) -/
theorem lock_rate_not_round_counterexample :
    (FX.lock_rate "rate_x" "usd" "eur" 3 200 0 30 2).amount_source_cents
      ≠ round ((200 : ℚ) / 3) := by
  have h1 : (FX.lock_rate "rate_x" "usd" "eur" 3 200 0 30 2).amount_source_cents
      = 66 := by
    show FX.pyTrunc (((200 : ℚ) / 100) / (if (3 : ℚ) = 0 then 1 else 3) * 100) = 66
    norm_num [FX.pyTrunc]
  have h2 : round ((200 : ℚ) / 3) = 67 := by
    rw [round_eq]
    norm_num
  rw [h1, h2]
  decide

/-- C5 (amended): the stored lock's `amount_source` is `amount_target /
rate` truncated toward zero (Python `int`), not rounded; `expires_at` is
the current time plus the lock duration, the status is `active`, and a
fetched rate of 0 is replaced by 1. -/
theorem lock_rate_fields (lockId src tgt : String) (r : ℚ) (A now D : ℤ)
    (M : ℚ) :
    (FX.lock_rate lockId src tgt r A now D M).amount_source_cents
        = FX.pyTrunc ((A : ℚ) / (if r = 0 then 1 else r))
    ∧ (FX.lock_rate lockId src tgt r A now D M).expires_at = now + D
    ∧ (FX.lock_rate lockId src tgt r A now D M).status = "active"
    ∧ (FX.lock_rate lockId src tgt r A now D M).rate
        = (if r = 0 then 1 else r) := by
  refine ⟨?_, rfl, rfl, rfl⟩
  unfold FX.lock_rate
  have key : ∀ a b : ℚ, a / 100 / b * 100 = a / b := by
    intro a b
    rcases eq_or_ne b 0 with hb | hb
    · simp [hb]
    · field_simp
      ring
  simp only [key]

/-- C10: the ledger-gateway balance read returns 999999 both when the
upstream call raises and when it succeeds with a reported balance ≤ 0, so
an account genuinely reporting 0 passes the `balance < amount`
insufficient-funds guard for every amount up to 999999. -/
theorem get_balance_demo_floor (rep amount : ℤ) (hrep : rep ≤ 0)
    (hamt : amount ≤ 999999) :
    Nessie.get_balance (some rep) = 999999
    ∧ Nessie.get_balance none = 999999
    ∧ Nessie.insufficientFunds (Nessie.get_balance (some rep)) amount = false := by
  have h1 : Nessie.get_balance (some rep) = 999999 := by
    show (if rep > 0 then rep else 999999) = 999999
    rw [if_neg (by omega)]
  refine ⟨h1, rfl, ?_⟩
  unfold Nessie.insufficientFunds
  rw [h1]
  simp only [decide_eq_false_iff_not, not_lt]
  omega

/-- Witness for C10: a zero reported balance passes the guard for a
4900-cent charge. -/
theorem get_balance_demo_floor_witness :
    ((0 : ℤ) ≤ 0 ∧ (4900 : ℤ) ≤ 999999)
    ∧ (Nessie.get_balance (some 0) = 999999
        ∧ Nessie.get_balance none = 999999
        ∧ Nessie.insufficientFunds (Nessie.get_balance (some 0)) 4900 = false) :=
  ⟨⟨by decide, by decide⟩, get_balance_demo_floor 0 4900 (by decide) (by decide)⟩

/-- The refund loop issues one transfer per contribution, in order, each
for exactly that contribution's `amount_local` from the organizer back to
the contributor, and produces one outcome entry per contribution no
matter which transfers fail. -/
theorem refundLoop_calls (organizer : String) (cs : List FXPool.FXContribution)
    (refundTxn : ℕ → Option String) (i : ℕ) :
    (FXPool.refundLoop organizer cs refundTxn i).2
        = cs.map (fun c => ⟨organizer, c.payer_account_id, c.amount_local⟩)
    ∧ (FXPool.refundLoop organizer cs refundTxn i).1.length = cs.length := by
  induction cs generalizing i with
  | nil => exact ⟨rfl, rfl⟩
  | cons c rest ih =>
    have h := ih (i + 1)
    refine ⟨?_, ?_⟩
    · show (⟨organizer, c.payer_account_id, c.amount_local⟩ : FXPool.TransferCall)
          :: (FXPool.refundLoop organizer rest refundTxn (i + 1)).2
          = _ :: rest.map _
      rw [h.1]
    · show (FXPool.refundLoop organizer rest refundTxn (i + 1)).1.length + 1
          = rest.length + 1
      rw [h.2]

/-- C2: every refund transfer issued by the FX-pool refund path is for
exactly the contribution's original `amount_local`, from the organizer
holding account back to that contributor, independent of any FX rate; and
the outcome list has one entry per contribution, so a failed transfer
(`refundTxn i = none`) never stops the remaining refunds from being
attempted. -/
theorem fxpool_refund_exact_local_amounts (p : FXPool.FXPoolState)
    (reason : String) (refundTxn : ℕ → Option String) :
    (FXPool.triggerRefund p reason refundTxn).2.2
        = p.contributions.map
            (fun c => ⟨p.organizer_account_id, c.payer_account_id, c.amount_local⟩)
    ∧ (FXPool.triggerRefund p reason refundTxn).2.1.length
        = p.contributions.length := by
  have h := refundLoop_calls p.organizer_account_id p.contributions refundTxn 0
  exact ⟨h.1, h.2⟩

/-- C8: the code has no status guard on `cancel` or `force-drift`.  On a
pool that is already `funded` (and settled), a cancel overwrites the
status with `cancelled` and still issues a refund transfer for the
recorded contribution, and a force-drift likewise overwrites the status
with `drift_refunded` — the terminal states are not terminal. -/
theorem fxpool_cancel_ignores_terminal_status :
    fundedFXPool.status = "funded"
    ∧ (FXPool.cancel_fxpool fundedFXPool (fun _ => some "ref_1")).1.status
        = "cancelled"
    ∧ (FXPool.cancel_fxpool fundedFXPool (fun _ => some "ref_1")).2.2
        = [⟨"org_acct", "payer_1", 500000⟩]
    ∧ (FXPool.simulate_rate_drift fundedFXPool (fun _ => some "ref_2")).1.status
        = "drift_refunded" :=
  ⟨rfl, rfl, rfl, rfl⟩

/-- C7: `approve` and `decline` on a Collect whose status is not
`pending` fail with the invalid-state error and leave the object
untouched; and after a successful `approve` (status `approved`, transfer
id recorded) a second `approve` fails the same way, again without
touching the object. -/
theorem collect_non_pending_rejected
    (c : Collect.CollectState) (now : ℤ) (fetch : Option ℤ)
    (txn : Option String) (hnp : c.status ≠ "pending")
    (c₀ : Collect.CollectState) (now₀ b₀ now' : ℤ) (t₀ : String)
    (fetch' : Option ℤ) (txn' : Option String)
    (hp : c₀.status = "pending") (hexp : ¬ now₀ > c₀.expires_at)
    (hbal : ¬ b₀ < c₀.amount) :
    (Collect.approve_collect c now fetch txn
        = (Except.error Collect.CollectError.invalid_state, c)
      ∧ Collect.decline_collect c now
        = (Except.error Collect.CollectError.invalid_state, c))
    ∧ ((Collect.approve_collect c₀ now₀ (some b₀) (some t₀)).2.status
          = "approved"
      ∧ (Collect.approve_collect c₀ now₀ (some b₀) (some t₀)).2.nessie_transfer_id
          = some t₀
      ∧ Collect.approve_collect
            (Collect.approve_collect c₀ now₀ (some b₀) (some t₀)).2 now' fetch' txn'
          = (Except.error Collect.CollectError.invalid_state,
             (Collect.approve_collect c₀ now₀ (some b₀) (some t₀)).2)) := by
  have happ : Collect.approve_collect c₀ now₀ (some b₀) (some t₀)
      = (Except.ok { c₀ with
            status := "approved", approved_at := some now₀,
            nessie_transfer_id := some t₀ },
         { c₀ with
            status := "approved", approved_at := some now₀,
            nessie_transfer_id := some t₀ }) := by
    simp [Collect.approve_collect, hp, hexp, hbal, Nessie.insufficientFunds]
  refine ⟨⟨?_, ?_⟩, ?_, ?_, ?_⟩
  · unfold Collect.approve_collect
    rw [if_pos hnp]
  · unfold Collect.decline_collect
    rw [if_pos hnp]
  · rw [happ]
  · rw [happ]
  · rw [happ]
    unfold Collect.approve_collect
    rw [if_pos (by simp : ¬ ("approved" : String) = "pending")]

/-- Witness for C7: a declined Collect rejects approve and decline; a
pending 4900-cent Collect with a sufficient balance approves, records the
transfer id, and rejects a second approve. -/
theorem collect_non_pending_rejected_witness :
    ((⟨"declined", 4900, "acct_p", "acct_q", 100, none, some 5, none⟩
        : Collect.CollectState).status ≠ "pending"
      ∧ (⟨"pending", 4900, "acct_p", "acct_q", 100, none, none, none⟩
        : Collect.CollectState).status = "pending"
      ∧ ¬ (7 : ℤ) > (⟨"pending", 4900, "acct_p", "acct_q", 100, none, none, none⟩
        : Collect.CollectState).expires_at
      ∧ ¬ (999999 : ℤ) < (⟨"pending", 4900, "acct_p", "acct_q", 100, none, none, none⟩
        : Collect.CollectState).amount)
    ∧ ((Collect.approve_collect
          ⟨"declined", 4900, "acct_p", "acct_q", 100, none, some 5, none⟩
          7 (some 999999) (some "t9")
        = (Except.error Collect.CollectError.invalid_state,
           ⟨"declined", 4900, "acct_p", "acct_q", 100, none, some 5, none⟩)
      ∧ Collect.decline_collect
          ⟨"declined", 4900, "acct_p", "acct_q", 100, none, some 5, none⟩ 7
        = (Except.error Collect.CollectError.invalid_state,
           ⟨"declined", 4900, "acct_p", "acct_q", 100, none, some 5, none⟩))
    ∧ ((Collect.approve_collect
          ⟨"pending", 4900, "acct_p", "acct_q", 100, none, none, none⟩
          7 (some 999999) (some "t7")).2.status = "approved"
      ∧ (Collect.approve_collect
          ⟨"pending", 4900, "acct_p", "acct_q", 100, none, none, none⟩
          7 (some 999999) (some "t7")).2.nessie_transfer_id = some "t7"
      ∧ Collect.approve_collect
          (Collect.approve_collect
            ⟨"pending", 4900, "acct_p", "acct_q", 100, none, none, none⟩
            7 (some 999999) (some "t7")).2 8 (some 999999) (some "t8")
        = (Except.error Collect.CollectError.invalid_state,
           (Collect.approve_collect
             ⟨"pending", 4900, "acct_p", "acct_q", 100, none, none, none⟩
             7 (some 999999) (some "t7")).2))) :=
  ⟨⟨by decide, by decide, by decide, by decide⟩,
    collect_non_pending_rejected
      ⟨"declined", 4900, "acct_p", "acct_q", 100, none, some 5, none⟩
      7 (some 999999) (some "t9") (by decide)
      ⟨"pending", 4900, "acct_p", "acct_q", 100, none, none, none⟩
      7 999999 8 "t7" (some 999999) (some "t8")
      (by decide) (by decide) (by decide)⟩

/-- C6: a first POST with a fresh (key, path) pair invokes the handler and
caches its 2xx result; a repeat with the same pair returns the cached
status and byte-identical body without re-invoking the handler, tagged as
a replay; a different key invokes the handler again; a request without a
key always invokes the handler; and a non-2xx result is not cached. -/
theorem idem_cache_replay_semantics
    (store : Idem.IdemStore) (path k k' : String) (h h' h'' : ℕ × String)
    (hk : ¬ k = "") (hk' : ¬ k' = "") (hne : ¬ k' = k)
    (hfresh : Idem.storeLookup store (k, path) = none)
    (hfresh' : Idem.storeLookup store (k', path) = none)
    (h2xx : 200 ≤ h.1 ∧ h.1 < 300)
    (hbad : ¬ (200 ≤ h''.1 ∧ h''.1 < 300)) :
    Idem.dispatch store ⟨"POST", path, some k⟩ h
      = (⟨h.1, h.2, some false, true⟩, ((k, path), h) :: store)
    ∧ Idem.dispatch (((k, path), h) :: store) ⟨"POST", path, some k⟩ h'
      = (⟨h.1, h.2, some true, false⟩, ((k, path), h) :: store)
    ∧ (Idem.dispatch (((k, path), h) :: store) ⟨"POST", path, some k'⟩ h').1.handlerInvoked
      = true
    ∧ Idem.dispatch store ⟨"POST", path, none⟩ h = (⟨h.1, h.2, none, true⟩, store)
    ∧ Idem.dispatch store ⟨"POST", path, some k⟩ h''
      = (⟨h''.1, h''.2, none, true⟩, store) := by
  have hcache : Idem.storeLookup (((k, path), h) :: store) (k, path) = some h := by
    simp [Idem.storeLookup, List.find?]
  have hb : (((k, path) : String × String) == (k', path)) = false := by
    apply beq_eq_false_iff_ne.mpr
    intro hEq
    exact hne (congrArg Prod.fst hEq).symm
  have hcache' : Idem.storeLookup (((k, path), h) :: store) (k', path)
      = Idem.storeLookup store (k', path) := by
    simp [Idem.storeLookup, List.find?, hb]
  refine ⟨?_, ?_, ?_, ?_, ?_⟩
  · simp [Idem.dispatch, hk, hfresh, h2xx]
  · simp [Idem.dispatch, hk, hcache]
  · simp [Idem.dispatch, hk', hcache', hfresh']
    split
    · rfl
    · rfl
  · simp [Idem.dispatch]
  · simp [Idem.dispatch, hk, hfresh, hbad]

/-- Witness for C6 on an empty store: key_a caches a 201 creation, the
repeat replays it byte-for-byte without running the handler, key_b runs
the handler afresh, a keyless request runs it, and a 500 is not cached. -/
theorem idem_cache_replay_semantics_witness :
    ((¬ ("key_a" : String) = "" ∧ ¬ ("key_b" : String) = ""
        ∧ ¬ ("key_b" : String) = "key_a")
      ∧ Idem.storeLookup [] ("key_a", "/v1/collects") = none
      ∧ Idem.storeLookup [] ("key_b", "/v1/collects") = none
      ∧ (200 ≤ 201 ∧ 201 < 300) ∧ ¬ (200 ≤ 500 ∧ 500 < 300))
    ∧ (Idem.dispatch [] ⟨"POST", "/v1/collects", some "key_a"⟩ (201, "bodyA")
        = (⟨201, "bodyA", some false, true⟩,
           [(("key_a", "/v1/collects"), (201, "bodyA"))])
      ∧ Idem.dispatch [(("key_a", "/v1/collects"), (201, "bodyA"))]
            ⟨"POST", "/v1/collects", some "key_a"⟩ (201, "bodyB")
        = (⟨201, "bodyA", some true, false⟩,
           [(("key_a", "/v1/collects"), (201, "bodyA"))])
      ∧ (Idem.dispatch [(("key_a", "/v1/collects"), (201, "bodyA"))]
            ⟨"POST", "/v1/collects", some "key_b"⟩ (201, "bodyB")).1.handlerInvoked
        = true
      ∧ Idem.dispatch [] ⟨"POST", "/v1/collects", none⟩ (201, "bodyA")
        = (⟨201, "bodyA", none, true⟩, [])
      ∧ Idem.dispatch [] ⟨"POST", "/v1/collects", some "key_a"⟩ (500, "err")
        = (⟨500, "err", none, true⟩, [])) :=
  ⟨⟨⟨by decide, by decide, by decide⟩, rfl, rfl, by decide, by decide⟩,
    idem_cache_replay_semantics [] "/v1/collects" "key_a" "key_b"
      (201, "bodyA") (201, "bodyB") (500, "err")
      (by decide) (by decide) (by decide) rfl rfl (by decide) (by decide)⟩

/-- C9: the naive check-then-write cache races.  When two requests with
the same idempotency key both pass the cache check before either has
cached a result (the `await call_next` sits between the check and the
write), the downstream handler executes twice; run strictly one after the
other, it executes once and the second request is a replay. -/
theorem idem_race_double_execution :
    (Idem.raceRun (201, "created")).1.handlerRuns = 2
    ∧ (Idem.seqRun (201, "created")).1.handlerRuns = 1
    ∧ (Idem.seqRun (201, "created")).2.2 = Idem.ReqPhase.done 201 "created" :=
  ⟨rfl, rfl, rfl⟩

/-- A successful `contribute` preserves the Pool invariant: the new
contribution's amount is added both to the list and to
`collected_amount`, and the pool flips to `funded` exactly when the new
total reaches the goal. -/
theorem pool_contribute_preserves_inv (p : Pool.PoolState)
    (payer : String) (amount now : ℤ) (fetch : Option ℤ)
    (txn settle : Option String) (p' : Pool.PoolState) (h : PoolInv p)
    (hok : Pool.contribute p payer amount now fetch txn settle = Except.ok p') :
    PoolInv p' := by
  unfold Pool.contribute at hok
  split at hok
  · exact Except.noConfusion hok
  split at hok
  · exact Except.noConfusion hok
  split at hok
  · exact Except.noConfusion hok
  split at hok
  · exact Except.noConfusion hok
  split at hok
  · exact Except.noConfusion hok
  rename_i tid
  dsimp only at hok
  split at hok
  next hreach =>
    injection hok with heq
    subst heq
    refine ⟨?_, fun _ => rfl⟩
    show p.collected_amount + amount
        = Pool.sumAmounts (p.contributions ++ [⟨payer, amount, tid⟩])
    simp [Pool.sumAmounts, h.1]
  next hreach =>
    injection hok with heq
    subst heq
    refine ⟨?_, fun hge => absurd hge hreach⟩
    show p.collected_amount + amount
        = Pool.sumAmounts (p.contributions ++ [⟨payer, amount, tid⟩])
    simp [Pool.sumAmounts, h.1]

/-- A successful `cancel` preserves the Pool invariant: it only changes
the status (from `collecting`, hence strictly below the goal) and the
refund id list. -/
theorem pool_cancel_preserves_inv (p : Pool.PoolState)
    (refundTxn : ℕ → Option String) (failTag : ℕ → String)
    (p' : Pool.PoolState) (h : PoolInv p)
    (hok : Pool.cancel p refundTxn failTag = Except.ok p') : PoolInv p' := by
  unfold Pool.cancel at hok
  split at hok
  · exact Except.noConfusion hok
  next hcond =>
    injection hok with heq
    subst heq
    constructor
    · exact h.1
    · intro hge
      have hcollecting : p.status = "collecting" := not_ne_iff.mp hcond
      have hfunded : p.status = "funded" := h.2 hge
      rw [hcollecting] at hfunded
      exact absurd hfunded (by decide)

/-- Every command (accepted or rejected) preserves the Pool invariant. -/
theorem pool_step_preserves_inv (p : Pool.PoolState) (op : Pool.PoolOp)
    (h : PoolInv p) : PoolInv (Pool.step p op) := by
  cases op with
  | contribute payer amount now fetch txn settle =>
    simp only [Pool.step]
    cases hres : Pool.contribute p payer amount now fetch txn settle with
    | ok p' => exact pool_contribute_preserves_inv p payer amount now fetch txn settle p' h hres
    | error e => exact h
  | cancel refundTxn failTag =>
    simp only [Pool.step]
    cases hres : Pool.cancel p refundTxn failTag with
    | ok p' => exact pool_cancel_preserves_inv p refundTxn failTag p' h hres
    | error e => exact h

/-- The Pool invariant is preserved by any sequence of commands. -/
theorem pool_run_preserves_inv (ops : List Pool.PoolOp) (p : Pool.PoolState)
    (h : PoolInv p) : PoolInv (Pool.run p ops) := by
  induction ops generalizing p with
  | nil => exact h
  | cons op rest ih => exact ih (Pool.step p op) (pool_step_preserves_inv p op h)

/-- C1 counterexample: a pool created with `goal_amount = 0` (the schema
imposes no positivity bound) already satisfies
`collected_amount >= goal_amount` after the empty command sequence, yet
its status is `collecting`, not `funded`, and a further contribution is
accepted — it is appended, changes `collected_amount`, and only then
flips the pool to `funded`. -/
theorem pool_zero_goal_counterexample :
    (Pool.run (Pool.mkPool 0 1000) []).goal_amount
        ≤ (Pool.run (Pool.mkPool 0 1000) []).collected_amount
    ∧ (Pool.run (Pool.mkPool 0 1000) []).status ≠ "funded"
    ∧ Pool.contribute (Pool.run (Pool.mkPool 0 1000) []) "payer_1" 100 0
        (some 999999) (some "txn_1") none
      = Except.ok
          { status := "funded", goal_amount := 0, collected_amount := 100,
            contributions := [⟨"payer_1", 100, "txn_1"⟩], deadline := 1000,
            participant_count := 1, contributions_count := 1,
            nessie_transfer_ids := [], refund_ids := none } :=
  ⟨by decide, by decide, rfl⟩

/-- C1 (amended): for every pool created with a *positive* goal, after
any sequence of contribute and cancel commands the collected amount
equals the sum of the recorded contributions, a pool at or past its goal
is `funded`, and a `funded` pool rejects a further contribute with the
conflict error and no state change. -/
theorem pool_collected_sum_funded_terminal (g d : ℤ) (hg : 0 < g)
    (ops : List Pool.PoolOp) (payer : String) (amount now : ℤ)
    (fetch : Option ℤ) (txn settle : Option String) :
    (Pool.run (Pool.mkPool g d) ops).collected_amount
        = Pool.sumAmounts (Pool.run (Pool.mkPool g d) ops).contributions
    ∧ ((Pool.run (Pool.mkPool g d) ops).goal_amount
          ≤ (Pool.run (Pool.mkPool g d) ops).collected_amount
        → (Pool.run (Pool.mkPool g d) ops).status = "funded")
    ∧ ((Pool.run (Pool.mkPool g d) ops).status = "funded"
        → Pool.contribute (Pool.run (Pool.mkPool g d) ops) payer amount now
            fetch txn settle
            = Except.error Pool.PoolError.conflict_funded
          ∧ Pool.step (Pool.run (Pool.mkPool g d) ops)
              (Pool.PoolOp.contribute payer amount now fetch txn settle)
            = Pool.run (Pool.mkPool g d) ops) := by
  have hbase : PoolInv (Pool.mkPool g d) := by
    constructor
    · rfl
    · intro hge
      exact absurd (show g ≤ 0 from hge) (by omega)
  have hinv := pool_run_preserves_inv ops (Pool.mkPool g d) hbase
  refine ⟨hinv.1, hinv.2, ?_⟩
  intro hfunded
  have hc : Pool.contribute (Pool.run (Pool.mkPool g d) ops) payer amount now
      fetch txn settle = Except.error Pool.PoolError.conflict_funded := by
    unfold Pool.contribute
    rw [if_pos hfunded]
  refine ⟨hc, ?_⟩
  simp only [Pool.step, hc]

/-- Witness for C1: goal 200, two contributions of 150 and 100; after the
second the pool is funded and a third contribute is rejected without any
change. -/
theorem pool_collected_sum_funded_terminal_witness :
    (0 : ℤ) < 200
    ∧ ((Pool.run (Pool.mkPool 200 1000)
          [Pool.PoolOp.contribute "p1" 150 0 (some 999999) (some "t1") none,
           Pool.PoolOp.contribute "p2" 100 5 (some 999999) (some "t2") (some "s1")]).collected_amount
        = Pool.sumAmounts (Pool.run (Pool.mkPool 200 1000)
          [Pool.PoolOp.contribute "p1" 150 0 (some 999999) (some "t1") none,
           Pool.PoolOp.contribute "p2" 100 5 (some 999999) (some "t2") (some "s1")]).contributions
      ∧ ((Pool.run (Pool.mkPool 200 1000)
          [Pool.PoolOp.contribute "p1" 150 0 (some 999999) (some "t1") none,
           Pool.PoolOp.contribute "p2" 100 5 (some 999999) (some "t2") (some "s1")]).goal_amount
            ≤ (Pool.run (Pool.mkPool 200 1000)
          [Pool.PoolOp.contribute "p1" 150 0 (some 999999) (some "t1") none,
           Pool.PoolOp.contribute "p2" 100 5 (some 999999) (some "t2") (some "s1")]).collected_amount
          → (Pool.run (Pool.mkPool 200 1000)
          [Pool.PoolOp.contribute "p1" 150 0 (some 999999) (some "t1") none,
           Pool.PoolOp.contribute "p2" 100 5 (some 999999) (some "t2") (some "s1")]).status = "funded")
      ∧ ((Pool.run (Pool.mkPool 200 1000)
          [Pool.PoolOp.contribute "p1" 150 0 (some 999999) (some "t1") none,
           Pool.PoolOp.contribute "p2" 100 5 (some 999999) (some "t2") (some "s1")]).status = "funded"
          → Pool.contribute (Pool.run (Pool.mkPool 200 1000)
          [Pool.PoolOp.contribute "p1" 150 0 (some 999999) (some "t1") none,
           Pool.PoolOp.contribute "p2" 100 5 (some 999999) (some "t2") (some "s1")]) "p3" 50 7
              (some 999999) (some "t3") none
              = Except.error Pool.PoolError.conflict_funded
            ∧ Pool.step (Pool.run (Pool.mkPool 200 1000)
          [Pool.PoolOp.contribute "p1" 150 0 (some 999999) (some "t1") none,
           Pool.PoolOp.contribute "p2" 100 5 (some 999999) (some "t2") (some "s1")])
                (Pool.PoolOp.contribute "p3" 50 7 (some 999999) (some "t3") none)
              = Pool.run (Pool.mkPool 200 1000)
          [Pool.PoolOp.contribute "p1" 150 0 (some 999999) (some "t1") none,
           Pool.PoolOp.contribute "p2" 100 5 (some 999999) (some "t2") (some "s1")])) :=
  ⟨by decide,
    pool_collected_sum_funded_terminal 200 1000 (by decide)
      [Pool.PoolOp.contribute "p1" 150 0 (some 999999) (some "t1") none,
       Pool.PoolOp.contribute "p2" 100 5 (some 999999) (some "t2") (some "s1")]
      "p3" 50 7 (some 999999) (some "t3") none⟩

/-- C4: `contribute_to_pool` only checks `funded` and the deadline — a
*cancelled* pool whose deadline has not passed still accepts a
contribution: it is appended, `collected_amount` grows, and the status
stays `cancelled` (and would even become `funded` at the goal). -/
theorem pool_contribute_after_cancel_accepted :
    (Pool.run (Pool.mkPool 200 1000)
        [Pool.PoolOp.cancel (fun _ => some "ref_1") (fun _ => "failed_ref"),
         Pool.PoolOp.contribute "payer_1" 50 0 (some 999999) (some "txn_9") none]).status
      = "cancelled"
    ∧ (Pool.run (Pool.mkPool 200 1000)
        [Pool.PoolOp.cancel (fun _ => some "ref_1") (fun _ => "failed_ref"),
         Pool.PoolOp.contribute "payer_1" 50 0 (some 999999) (some "txn_9") none]).collected_amount
      = 50
    ∧ (Pool.run (Pool.mkPool 200 1000)
        [Pool.PoolOp.cancel (fun _ => some "ref_1") (fun _ => "failed_ref"),
         Pool.PoolOp.contribute "payer_1" 50 0 (some 999999) (some "txn_9") none]).contributions
      = [⟨"payer_1", 50, "txn_9"⟩] :=
  ⟨rfl, rfl, rfl⟩
